import Mathlib

/-!
Shallow embedding of `src/gen.py`, the Zephyr LwM2M object stub generator.

The Python program parses one XML object definition into an in-memory model
(`LWM2MResource`, `LWM2MObject`) and renders it, through a fixed sequence of
string generators, into one generated C file.

Modelling conventions:
  * `node.find(path)` returning `None` (element absent) followed by `.text`
    raises `AttributeError`; an element that is present carries an optional
    text.  A looked-up child element is therefore an `Option (Option String)`:
    the outer `none` is an absent element, the inner `none` is empty text.
  * Python exceptions are the explicit error values of `PyError`.
  * A Python generator consumed by `f.writelines` is a `GenResult`: the list of
    chunks yielded before any exception, paired with the exception (if one was
    raised part-way).  Chunks written before the exception stay in the file.
  * `math.ceil(math.log2(max_val) / 8.0) * 8` is modelled with the exact real
    logarithm (expressed over `floorLog2`, proved equal to `Nat.log2`); the
    floating-point computation of the source agrees with it except within a
    few ulps of the powers `2 ^ (8 * k)`, far away from every input
    considered here.
-/

inductive PyError where
  | attributeError
  | typeError
  | valueError
  | assertionError
  | mathDomainError
  | unhandledResourceType
  deriving Repr, DecidableEq

/-- Models `node.find(path).text`: an absent element makes `.text` raise
`AttributeError`; a present element yields its optional text. -/
def findText (e : Option (Option String)) : Except PyError (Option String) :=
  match e with
  | none => .error .attributeError
  | some t => .ok t

/-- Value of a list of decimal digit characters. -/
def digitsVal (cs : List Char) : Nat :=
  cs.foldl (fun a c => a * 10 + (c.toNat - 48)) 0

/-- Models Python `int(s)` on decimal string literals: an optional sign followed
by digits; anything else raises `ValueError`. -/
def pyInt (s : String) : Except PyError Int :=
  let sp : Bool × List Char :=
    match s.data with
    | '-' :: rest => (true, rest)
    | '+' :: rest => (false, rest)
    | cs => (false, cs)
  if sp.2 ≠ [] ∧ sp.2.all Char.isDigit then
    .ok (if sp.1 then -(digitsVal sp.2 : Int) else (digitsVal sp.2 : Int))
  else .error .valueError

/-- Models Python `int(x)` where `x` is an optional string (an absent XML
attribute or empty element text is `None`, and `int(None)` raises
`TypeError`). -/
def pyIntOfOptStr (s : Option String) : Except PyError Int :=
  match s with
  | none => .error .typeError
  | some s => pyInt s

/-- Greedy split of a leading run of decimal digits. -/
def takeDigits : List Char → List Char × List Char
  | [] => ([], [])
  | c :: cs =>
    if c.isDigit then
      let p := takeDigits cs
      (c :: p.1, p.2)
    else ([], c :: cs)

/-- Count of the leading run of dots, and the remainder. -/
def takeDots : List Char → Nat × List Char
  | [] => (0, [])
  | c :: cs =>
    if c = '.' then
      let p := takeDots cs
      (p.1 + 1, p.2)
    else (0, c :: cs)

/-- Models a prefix match of the regex fragment for one number group,
written in the source as minus-sign?, digits+, dot?, digits*: greedy,
with nothing of the pattern following it. -/
def matchNumGroup (cs : List Char) : Option String :=
  let sp : String × List Char :=
    match cs with
    | '-' :: rest => ("-", rest)
    | _ => ("", cs)
  match takeDigits sp.2 with
  | ([], _) => none
  | (d1, cs2) =>
    match cs2 with
    | '.' :: cs3 =>
      let p := takeDigits cs3
      some (sp.1 ++ String.mk d1 ++ "." ++ String.mk p.1)
    | _ => some (sp.1 ++ String.mk d1)

/-- Models `range_regex.match(s)` for the source pattern
`^(?P<min>-?\d+\.?\d*)\.\.+(?P<max>-?\d+\.?\d*)` and the extraction of the two
groups.  `re.match` anchors at the start only.  The single backtracking point
of the pattern, the optional dot inside the min group, is made explicit: the
greedy alternative (dot taken) is tried first, the dot-not-taken alternative is
tried on any later failure. -/
def matchRange (s : String) : Option (String × String) :=
  let sp : String × List Char :=
    match s.data with
    | '-' :: rest => ("-", rest)
    | _ => ("", s.data)
  match takeDigits sp.2 with
  | ([], _) => none
  | (d1, cs2) =>
    let tryB : Option (String × String) :=
      let pd := takeDots cs2
      if 2 ≤ pd.1 then
        (matchNumGroup pd.2).map (fun mx => (sp.1 ++ String.mk d1, mx))
      else none
    match cs2 with
    | '.' :: cs3 =>
      let p2 := takeDigits cs3
      let pd := takeDots p2.2
      let tryA : Option (String × String) :=
        if 2 ≤ pd.1 then
          (matchNumGroup pd.2).map
            (fun mx => (sp.1 ++ String.mk d1 ++ "." ++ String.mk p2.1, mx))
        else none
      match tryA with
      | some r => some r
      | none => tryB
    | _ => tryB

/-- Fuel-driven floor of the base-two logarithm (kernel-evaluable; shown equal
to `Nat.log2` below). -/
def floorLog2Aux : Nat → Nat → Nat
  | 0, _ => 0
  | fuel + 1, n => if n ≤ 1 then 0 else floorLog2Aux fuel (n / 2) + 1

/-- Floor of the base-two logarithm (zero at zero). -/
def floorLog2 (n : Nat) : Nat := floorLog2Aux n n

theorem floorLog2Aux_eq (fuel n : Nat) (h : n ≤ fuel) :
    floorLog2Aux fuel n = Nat.log2 n := by
  induction fuel generalizing n with
  | zero =>
    have : n = 0 := by omega
    subst this
    rw [Nat.log2]
    rfl
  | succ f ih =>
    unfold floorLog2Aux
    by_cases h1 : n ≤ 1
    · rw [Nat.log2, if_pos h1, if_neg (by omega)]
    · have h2 : n / 2 ≤ f := by omega
      rw [ih _ h2]
      conv_rhs => rw [Nat.log2]
      rw [if_neg h1, if_pos (by omega)]

theorem floorLog2_eq_log2 (n : Nat) : floorLog2 n = Nat.log2 n :=
  floorLog2Aux_eq n n le_rfl

/-- Models `int(math.ceil(math.log2(max_val) / 8.0) * 8)` with the exact real
logarithm: for a positive argument it is `8 * k` for the least `k` with
`max_val ≤ 2 ^ (8 * k)`; a nonpositive argument makes `math.log2` raise a
math-domain `ValueError`. -/
def py_byte_size (max_val : Int) : Except PyError Int :=
  if max_val ≤ 0 then .error .mathDomainError
  else
    let m := max_val.toNat
    if m = 1 then .ok 0
    else .ok (8 * (floorLog2 (m - 1) / 8 + 1))

/-- Models Python `str.upper()` (ASCII case mapping, which coincides with the
Python behavior on the ASCII inputs of this domain). -/
def pyUpper (s : String) : String := String.mk (s.data.map Char.toUpper)

/-- Models Python `str.lower()` (ASCII case mapping). -/
def pyLower (s : String) : String := String.mk (s.data.map Char.toLower)

/-- Models Python `str.replace(a, b)` for a single-character pattern (the only
form the source uses: replacing each space with an underscore). -/
def pyReplaceChar (s : String) (a b : Char) : String :=
  String.mk (s.data.map (fun c => if c = a then b else c))

structure LWM2MResource where
  id : Int
  name : Option String
  operations : String
  singleton : Bool
  mandatory : Bool
  type : Option String
  description : Option String
  signed : Option Bool
  byte_size : Option Int
  deriving Repr, DecidableEq

/-- Models `is_exec(res)`: `res.operations.upper() == "E"` (ASCII upper-casing,
so operations are compared case-insensitively against "E"). -/
def is_exec (res : LWM2MResource) : Bool :=
  pyUpper res.operations == "E"

/-- One `Resources/Item` element of the input document: the `ID` attribute and
the child elements the parser looks up. -/
structure ResNode where
  attrID : Option String
  eName : Option (Option String)
  eOperations : Option (Option String)
  eMultipleInstances : Option (Option String)
  eMandatory : Option (Option String)
  eType : Option (Option String)
  eDescription : Option (Option String)
  eRangeEnumeration : Option (Option String)
  deriving Repr, DecidableEq

/-- Models `m.group(...)` on a match result: `re.match` returned `None` and
`.group` raises `AttributeError`, or the group text is extracted. -/
def demandMatch {α : Type} (m : Option α) : Except PyError α :=
  match m with
  | none => Except.error .attributeError
  | some g => pure g

/-- Models an `assert` statement. -/
def pyAssert (cond : Bool) : Except PyError Unit :=
  if cond then pure () else .error .assertionError

/-- Models the body of the `Integer` branch when a range string is declared:
match it against the range regex (a failed match raises `AttributeError` at
`m.group`), convert the two groups with `int`, set `signed = min_val < 0`,
compute the byte size, double it when signed, and assert it is at most 64. -/
def rangeAttrs (range_str : String) :
    Except PyError (Option Bool × Option Int) := do
  let groups ← demandMatch (matchRange range_str)
  let min_val ← pyInt groups.1
  let max_val ← pyInt groups.2
  let signed := decide (min_val < 0)
  let bs0 ← py_byte_size max_val
  let bs := if signed then bs0 * 2 else bs0
  let _ ← pyAssert (decide (bs ≤ 64))
  pure (some signed, some bs)

/-- Models the `Integer` branch of `LWM2MResource.__init__`: the derived
`(signed, byte_size)` attributes from the `RangeEnumeration` element.  An
absent element raises at `.text`; an empty text selects the defaults. -/
def integerAttrs (rangeElem : Option (Option String)) :
    Except PyError (Option Bool × Option Int) :=
  match rangeElem with
  | none => .error .attributeError
  | some none => .ok (some true, some 32)
  | some (some range_str) => rangeAttrs range_str

/-- Models the guard `if self.type == "Integer":` around the `Integer` branch:
for any other type the derived attributes stay unset. -/
def resourceTypeAttrs (ty : Option String)
    (rangeElem : Option (Option String)) :
    Except PyError (Option Bool × Option Int) :=
  if ty == some "Integer" then integerAttrs rangeElem
  else pure (none, none)

/-- Models the first use of the operations text, `self.operations.upper()`
inside `is_exec`: a `None` text raises `AttributeError` there. -/
def demandOpsText (ops? : Option String) : Except PyError String :=
  match ops? with
  | none => Except.error .attributeError
  | some ops => pure ops

/-- Models `LWM2MResource.__init__` (field extraction in source order, the
`Integer` branch, then the assertion that a non-execute resource has a
non-empty type). -/
def LWM2MResource.parse (node : ResNode) : Except PyError LWM2MResource := do
  let rid ← pyIntOfOptStr node.attrID
  let nm ← findText node.eName
  let ops? ← findText node.eOperations
  let mi ← findText node.eMultipleInstances
  let md ← findText node.eMandatory
  let ty ← findText node.eType
  let descr ← findText node.eDescription
  let sb ← resourceTypeAttrs ty node.eRangeEnumeration
  let ops ← demandOpsText ops?
  let res : LWM2MResource :=
    ⟨rid, nm, ops, mi == some "Single", md == some "Mandatory",
      ty, descr, sb.1, sb.2⟩
  if is_exec res then pure res
  else
    match ty with
    | none => Except.error .typeError
    | some t =>
      if 0 < t.length then pure res else Except.error .assertionError

/-- The `Object` element of the input document. -/
structure ObjNode where
  eName : Option (Option String)
  eDescription1 : Option (Option String)
  eObjectID : Option (Option String)
  eObjectURN : Option (Option String)
  eObjectVersion : Option (Option String)
  eMultipleInstances : Option (Option String)
  eMandatory : Option (Option String)
  resourceItems : List ResNode
  deriving Repr, DecidableEq

structure LWM2MObject where
  name : Option String
  desc1 : Option String
  id : Int
  objurn : Option String
  version : Option String
  singleton : Bool
  mandatory : Bool
  resources : List LWM2MResource
  deriving Repr, DecidableEq

/-- Models the `Resources/Item` loop of `LWM2MObject.__init__`. -/
def parseResources : List ResNode → Except PyError (List LWM2MResource)
  | [] => .ok []
  | n :: ns =>
    match LWM2MResource.parse n with
    | .error e => .error e
    | .ok r =>
      match parseResources ns with
      | .error e => .error e
      | .ok rs => .ok (r :: rs)

/-- Models `LWM2MObject.__init__`. -/
def LWM2MObject.parse (node : ObjNode) : Except PyError LWM2MObject := do
  let nm ← findText node.eName
  let d1 ← findText node.eDescription1
  let idText ← findText node.eObjectID
  let oid ← pyIntOfOptStr idText
  let urn ← findText node.eObjectURN
  let ver ← findText node.eObjectVersion
  let mi ← findText node.eMultipleInstances
  let md ← findText node.eMandatory
  let rs ← parseResources node.resourceItems
  pure ⟨nm, d1, oid, urn, ver, mi == some "Single", md == some "Mandatory", rs⟩

/-! ## Render pipeline

A Python generator consumed by `f.writelines` is modelled as a `GenResult`:
the chunks yielded before any exception, and the exception if one was raised
part-way through the iteration. -/

/-- Chunks yielded before any error, paired with the error (if raised). -/
abbrev GenResult := List String × Option PyError

/-- A generator fragment that yields the given chunks and raises nothing. -/
def gpure (ss : List String) : GenResult := (ss, none)

/-- Sequential composition: if `a` raised, its chunks stand and `b` is never
consumed; otherwise the chunks concatenate and `b` decides the error. -/
def gseq (a b : GenResult) : GenResult :=
  match a.2 with
  | some _ => a
  | none => (a.1 ++ b.1, b.2)

/-- Evaluating a fallible value while building the next chunk: a raise yields
no further chunks. -/
def gbind {α : Type} (x : Except PyError α) (f : α → GenResult) : GenResult :=
  match x with
  | .error e => ([], some e)
  | .ok a => f a

/-- A `for` loop inside a generator body. -/
def gfor {α : Type} : List α → (α → GenResult) → GenResult
  | [], _ => gpure []
  | a :: rest, f => gseq (f a) (gfor rest f)

/-- Models `def_format(string)`: `string.upper().replace(" ", "_")`; the
argument is `None` at no call site without raising `AttributeError` first. -/
def def_format (s : Option String) : Except PyError String :=
  match s with
  | none => .error .attributeError
  | some s => .ok (pyReplaceChar (pyUpper s) ' ' '_')

/-- Models `name_format(string)`: `string.lower().replace(" ", "_")`. -/
def name_format (s : Option String) : Except PyError String :=
  match s with
  | none => .error .attributeError
  | some s => .ok (pyReplaceChar (pyLower s) ' ' '_')

/-- Models `"{}".format(x)` on a possibly-`None` string: `None` renders as the
text `None` without raising. -/
def pyFormatOpt (s : Option String) : String :=
  match s with
  | none => "None"
  | some s => s

def gen_obj_id_def (obj : LWM2MObject) : Except PyError String :=
  (def_format obj.name).map (fun d => s!"LWM2M_OBJECT_{d}_ID")

def gen_max_id (obj : LWM2MObject) : Except PyError String :=
  (def_format obj.name).map (fun d => s!"{d}_MAX_ID")

def gen_res_def_name (obj : LWM2MObject) (res : LWM2MResource) :
    Except PyError String := do
  let o ← def_format obj.name
  let r ← def_format res.name
  pure s!"{o}_{r}"

def gen_res_id_name (obj : LWM2MObject) (res : LWM2MResource) :
    Except PyError String :=
  (gen_res_def_name obj res).map (fun n => s!"{n}_ID")

def gen_res_max_name (obj : LWM2MObject) (res : LWM2MResource) :
    Except PyError String :=
  (gen_res_def_name obj res).map (fun n => s!"{n}_MAX")

def gen_file_head (obj : LWM2MObject) : GenResult :=
  gseq (gpure ["/*\n", " * This is a generated stub\n", " *\n",
    " * SPDX-License-Identifier: Apache-2.0\n", " */\n\n"]) <|
  gbind (name_format obj.name) fun nm =>
  gpure [s!"#define LOG_MODULE_NAME net_lwm2m_obj_{nm}\n",
    "#define LOG_LEVEL CONFIG_LWM2M_LOG_LEVEL\n\n",
    "#include <logging/log.h>\n",
    "LOG_MODULE_REGISTER(LOG_MODULE_NAME);\n\n",
    "#include <string.h>\n",
    "#include <stdio.h>\n",
    "#include <init.h>\n\n",
    "#include \"lwm2m_object.h\"\n",
    "#include \"lwm2m_engine.h\"\n\n"]

def gen_res_defs (obj : LWM2MObject) : GenResult :=
  gseq (gpure ["// FIXME: This should probably be defined elsewhere\n"]) <|
  gseq (gbind (gen_obj_id_def obj) fun objid =>
    gpure [s!"#define {objid} {obj.id}\n\n"]) <|
  gseq (let onm := pyFormatOpt obj.name
    gpure [s!"/* {onm} resource IDs */\n"]) <|
  gseq (gfor obj.resources fun res =>
    gbind (gen_res_id_name obj res) fun idn =>
    gpure [s!"#define {idn} {res.id}\n"]) <|
  gseq (gbind (gen_max_id obj) fun mid =>
    gpure [s!"#define {mid} {obj.resources.length}\n"]) <|
  gseq (gpure ["\n"]) <|
  gseq (if !obj.singleton then
      gbind (def_format obj.name) fun d =>
      let conf_name := s!"CONFIG_LWM2M_{d}_INSTANCE_COUNT"
      gpure [s!"#ifdef {conf_name}\n",
        s!"#define MAX_INSTANCE_COUNT {conf_name}\n",
        "#else\n",
        "// FIXME: This default value is generated. Please evaluate if it is sane and remove this comment.\n",
        "#define MAX_INSTANCE_COUNT 1\n",
        "#endif\n\n"]
    else gpure []) <|
  gfor obj.resources fun res =>
    if !res.singleton then
      gbind (gen_res_max_name obj res) fun mx =>
      gpure [s!"#ifdef CONFIG_{mx}\n",
        s!"#define {mx} CONFIG_{mx}\n",
        "#else\n",
        "// FIXME: This default value is generated. Please evaluate if it is sane and remove this comment.\n",
        s!"#define {mx} 1\n",
        "#endif\n\n"]
    else gpure []

/-- One iteration of the counting loop at the top of `gen_res_inst_count`. -/
def res_inst_step (acc : Nat × List LWM2MResource) (res : LWM2MResource) :
    Nat × List LWM2MResource :=
  if is_exec res then (acc.1 + 1, acc.2)
  else if !res.singleton then (acc.1, acc.2 ++ [res])
  else acc

/-- Models the counting loop at the top of `gen_res_inst_count`: the number of
execute resources and, in order, the non-execute resources that are not
singletons. -/
def res_inst_classify (resources : List LWM2MResource) :
    Nat × List LWM2MResource :=
  resources.foldl res_inst_step (0, [])

def gen_res_inst_count (obj : LWM2MObject) : GenResult :=
  let nr_exec := (res_inst_classify obj.resources).1
  let multi_resources := (res_inst_classify obj.resources).2
  gseq (gpure ["/*\n", " * Calculate resource instances as follows:\n",
    " * start with DEVICE_MAX_ID\n",
    s!" * subtract EXEC resources ({nr_exec})\n",
    s!" * subtract MULTI resources because their counts include 0 resource ({multi_resources.length})\n"]) <|
  gseq (gfor multi_resources fun res =>
    gbind (gen_res_max_name obj res) fun mx =>
    gpure [s!" * add {mx}\n"]) <|
  gseq (gpure [" */\n"]) <|
  gseq (gbind (gen_max_id obj) fun mid =>
    gpure [s!"#define RESOURCE_INSTANCE_COUNT ({mid} - {nr_exec} - {multi_resources.length}"]) <|
  gseq (if 0 < multi_resources.length then
      gfor multi_resources fun res =>
        gbind (gen_res_max_name obj res) fun mx =>
        gpure [" \\\n                                 + " ++ mx]
    else gpure []) <|
  gpure [")\n"]

def gen_data_struct_var_name (obj : LWM2MObject) : Except PyError String :=
  (name_format obj.name).map (fun nm => s!"{nm}_data")

def gen_data_struct_type (obj : LWM2MObject) : Except PyError String :=
  (gen_data_struct_var_name obj).map (fun v => s!"struct {v}_t")

/-- Models the per-field `(typ, typ_suffix)` computation of `gen_data_struct`:
the storage type of one non-execute field, or the unhandled-resource-type
exception for a type outside the recognized enumeration. -/
def data_struct_member_type (res : LWM2MResource) :
    Except PyError (String × String) :=
  let data_len : Nat := 64
  if res.type == some "String" then .ok ("char", s!"[{data_len}]")
  else if res.type == some "Integer" then
    match res.signed, res.byte_size with
    | some sg, some bs =>
      let pfx := if sg then "" else "u"
      .ok (s!"{pfx}int{bs}_t", "")
    | _, _ => .error .attributeError
  else if res.type == some "Objlnk" then .ok ("struct lwm2m_objlnk", "")
  else if res.type == some "Float" then .ok ("float32_value_t", "")
  else if res.type == some "Opaque" then .ok ("uint8_t", s!"[{data_len}]")
  else if res.type == some "Time" then .ok ("uint32_t", "")
  else if res.type == some "Boolean" then .ok ("bool", "")
  else .error .unhandledResourceType

def gen_data_struct (obj : LWM2MObject) : GenResult :=
  gseq (gbind (gen_data_struct_type obj) fun ty =>
    gpure [s!"{ty} \x7b\n"]) <|
  gseq (gfor obj.resources fun res =>
    if is_exec res then gpure []
    else
      gbind (data_struct_member_type res) fun ts =>
      gbind (name_format res.name) fun nm =>
      gpure [s!"\t{ts.1} {nm}{ts.2};\n"]) <|
  gseq (gbind (name_format obj.name) fun _ => gpure ["\x7d;\n\n"]) <|
  gbind (gen_data_struct_type obj) fun ty =>
  gbind (gen_data_struct_var_name obj) fun v =>
  let arr_suffix := if !obj.singleton then "[MAX_INSTANCE_COUNT]" else ""
  gpure [s!"static {ty} {v}{arr_suffix};\n\n"]

/-- Models the type-tag chain of `gen_field` for a non-execute field. -/
def field_type_tag (res : LWM2MResource) : Except PyError String :=
  if res.type == some "String" then .ok "STRING"
  else if res.type == some "Integer" then
    match res.signed, res.byte_size with
    | some sg, some bs =>
      let pfx := if sg then "S" else "U"
      .ok s!"{pfx}{bs}"
    | _, _ => .error .attributeError
  else if res.type == some "Objlnk" then .ok "OBJLNK"
  else if res.type == some "Float" then .ok "FLOAT32"
  else if res.type == some "Opaque" then .ok "OPAQUE"
  else if res.type == some "Time" then .ok "TIME"
  else if res.type == some "Boolean" then .ok "BOOL"
  else .error .unhandledResourceType

def gen_field (obj : LWM2MObject) (res : LWM2MResource) :
    Except PyError String :=
  if is_exec res then
    let suffix := if res.mandatory then "" else "_OPT"
    (gen_res_id_name obj res).map
      (fun idn => s!"OBJ_FIELD_EXECUTE{suffix}({idn})")
  else
    let ops := if res.mandatory then res.operations
      else s!"{res.operations}_OPT"
    match field_type_tag res with
    | .error e => .error e
    | .ok typ =>
      (gen_res_id_name obj res).map
        (fun idn => s!"OBJ_FIELD_DATA({idn}, {ops}, {typ})")

def gen_fields (obj : LWM2MObject) : GenResult :=
  let max_inst := if obj.singleton then "" else "[MAX_INSTANCE_COUNT]"
  gseq (gbind (name_format obj.name) fun nm =>
    gpure [s!"static struct lwm2m_engine_obj {nm};\n"]) <|
  gseq (gpure ["static struct lwm2m_engine_obj_field fields[] = \x7b\n"]) <|
  gseq (gfor obj.resources.enum fun p =>
    gseq (gbind (gen_field obj p.2) fun fl => gpure [s!"\t{fl}"]) <|
    gseq (if p.1 < obj.resources.length - 1 then gpure [","] else gpure []) <|
    gpure ["\n"]) <|
  gseq (gpure ["\x7d;\n\n"]) <|
  gseq (gpure [s!"static struct lwm2m_engine_obj_inst inst{max_inst};\n"]) <|
  gseq (gbind (gen_max_id obj) fun mid =>
    gpure [s!"static struct lwm2m_engine_res res{max_inst}[{mid}];\n"]) <|
  gseq (gpure [s!"static struct lwm2m_engine_res_inst res_inst{max_inst}[RESOURCE_INSTANCE_COUNT];\n"]) <|
  gpure ["\n"]

def CHECK_AVAIL : String :=
  "\n    /* Check that there is no other instance with this ID */\n\tfor (index = 0; index < ARRAY_SIZE(inst); index++) \x7b\n\t\tif (inst[index].obj && inst[index].obj_inst_id == obj_inst_id) \x7b\n\t\t\tLOG_ERR(\"Can not create instance - \"\n\t\t\t\t\"already existing: %u\", obj_inst_id);\n\t\t\treturn NULL;\n\t\t\x7d\n\n\t\t/* Save first available slot index */\n\t\tif (avail < 0 && !inst[index].obj) \x7b\n\t\t\tavail = index;\n\t\t\x7d\n\t\x7d\n\n\tif (avail < 0) \x7b\n\t\tLOG_ERR(\"Can not create instance - no more room: %u\",\n\t\t\tobj_inst_id);\n\t\treturn NULL;\n\t\x7d\n    "

def gen_exec_cb_name (res : LWM2MResource) : Except PyError String :=
  (name_format res.name).map (fun nm => s!"state_{nm}_exec_cb")

/-- The stub emitted by `gen_exec_cbs` for one mandatory execute resource. -/
def exec_cb_stub (res : LWM2MResource) : GenResult :=
  gbind (gen_exec_cb_name res) fun cb =>
  gpure [s!"static int {cb}(uint16_t obj_inst_id)\n", "\x7b\n",
    "\t/* FIXME: Add exec callback implementation here */\n",
    "\treturn 0;\n", "\x7d\n\n"]

def gen_exec_cbs (obj : LWM2MObject) : GenResult :=
  gfor obj.resources fun res =>
    if !is_exec res || !res.mandatory then gpure []
    else exec_cb_stub res

def gen_create_func (obj : LWM2MObject) : GenResult :=
  gseq (gbind (name_format obj.name) fun nm =>
    gpure [s!"static struct lwm2m_engine_obj_inst *{nm}_create(uint16_t obj_inst_id)\n"]) <|
  gseq (gpure ["\x7b\n", "\tint i = 0;\n", "\tint j = 0;\n\n",
    "\t/* Set default values */\n"]) <|
  gbind (gen_data_struct_var_name obj) fun dvar =>
  let data_str := if !obj.singleton then "instance->" else s!"{dvar}."
  let res_str := if !obj.singleton then "res[avail]" else "res"
  let res_inst_str := if !obj.singleton then "res_inst[avail]" else "res_inst"
  let inst_str := if !obj.singleton then "inst[avail]" else "inst"
  gseq (if !obj.singleton then
      gseq (gpure ["\tint index = -1;\n", "\tint avail = -1;\n"]) <|
      gseq (gbind (gen_data_struct_type obj) fun ty =>
        gpure [s!"\t{ty} *instance;\n"]) <|
      gpure [CHECK_AVAIL,
        s!"\tinstance = &{dvar}[avail];\n",
        s!"\t(void)memset(instance, 0, sizeof({dvar}[avail]));\n"]
    else
      gpure [s!"\t(void)memset(&{dvar}, 0, sizeof({dvar}));\n"]) <|
  gseq (gpure [s!"\t(void)memset({res_str}, 0,\n",
    s!"\t             sizeof({res_str}[0]) * ARRAY_SIZE({res_str}));\n\n",
    s!"\tinit_res_instance({res_inst_str}, ARRAY_SIZE({res_inst_str}));\n\n",
    "\t/* initialize instance resource data */\n"]) <|
  gseq (gfor obj.resources fun res =>
    if is_exec res then
      gseq (gbind (gen_res_id_name obj res) fun idn =>
        gpure [s!"\tINIT_OBJ_RES_EXECUTE({idn}, {res_str}, i,\n"]) <|
      gseq (gpure ["\t                 "]) <|
      gseq (if res.mandatory then
          gbind (gen_exec_cb_name res) fun cb => gpure [cb]
        else gpure ["NULL"]) <|
      gpure [");\n"]
    else
      let pfx0 := if !res.mandatory then "OPT" else ""
      let pfx := if !res.singleton then s!"MULTI_{pfx0}" else pfx0
      let mcr := s!"INIT_OBJ_RES_{pfx}DATA"
      let spaces : String := String.mk (List.replicate mcr.length ' ')
      gseq (gbind (gen_res_id_name obj res) fun idn =>
        gpure [s!"\t{mcr}({idn},\n"]) <|
      gseq (gpure [s!"\t{spaces} {res_str}, i, {res_inst_str}, j"]) <|
      gseq (if !res.singleton then
          gseq (gpure [",\n"]) <|
          gbind (gen_res_max_name obj res) fun mx =>
          gpure [s!"\t{spaces} {mx}, false"]
        else gpure []) <|
      gseq (if res.mandatory then
          gseq (gpure [",\n"]) <|
          gbind (name_format res.name) fun rn =>
          gpure [s!"\t{spaces} &{data_str}{rn},\n",
            s!"\t{spaces} sizeof({data_str}{rn})"]
        else gpure []) <|
      gpure [");\n"]) <|
  gseq (gpure [s!"\n\t{inst_str}.resources = {res_str};\n",
    s!"\t{inst_str}.resource_count = i;\n"]) <|
  gseq (let onm := pyFormatOpt obj.name
    gpure [s!"\n\tLOG_DBG(\"Create {onm} instance: %d\", obj_inst_id);\n\n"]) <|
  gpure [s!"\treturn &{inst_str};\n", "\x7d\n\n"]

def gen_init_func (obj : LWM2MObject) : GenResult :=
  gbind (name_format obj.name) fun nm =>
  gseq (gpure [s!"static int lwm2m_{nm}_init(const struct device *dev)\n",
    "\x7b\n"]) <|
  gseq (if obj.singleton then
      gpure ["\tstruct lwm2m_engine_obj_inst *obj_inst;\n", "\tint ret;\n\n"]
    else gpure []) <|
  gseq (gbind (gen_obj_id_def obj) fun objid =>
    gpure [s!"\t{nm}.obj_id = {objid};\n"]) <|
  gseq (gpure [s!"\t{nm}.fields = fields;\n",
    s!"\t{nm}.field_count = ARRAY_SIZE(fields);\n"]) <|
  gseq (if obj.singleton then
      gpure [s!"\t{nm}.max_instance_count = 1;\n"]
    else
      gpure [s!"\t{nm}.max_instance_count = MAX_INSTANCE_COUNT;\n"]) <|
  gseq (gpure [s!"\t{nm}.create_cb = {nm}_create;\n",
    s!"\tlwm2m_register_obj(&{nm});\n\n"]) <|
  gseq (if obj.singleton then
      gseq (gpure ["\t/* auto create the only instance */\n",
        "\tobj_inst = NULL;\n",
        "\tret = lwm2m_create_obj_inst("]) <|
      gseq (gbind (gen_obj_id_def obj) fun objid =>
        gpure [s!"{objid}, 0, &obj_inst);\n"]) <|
      gpure ["\tif (ret < 0) \x7b\n",
        "\t\tLOG_DBG(\"Create LWM2M instance 0 error: %d\", ret);\n",
        "\t\x7d\n\n", "\treturn ret;\n"]
    else gpure ["\treturn 0;\n"]) <|
  gseq (gpure ["\x7d\n\n"]) <|
  gseq (gpure [s!"SYS_INIT(lwm2m_{nm}_init, APPLICATION, "]) <|
  gpure ["CONFIG_KERNEL_INIT_PRIORITY_DEFAULT);\n"]

/-- The fixed stage order of `main`: the eight generators whose output is
written to the file, in source order. -/
def generate (obj : LWM2MObject) : GenResult :=
  gseq (gen_file_head obj) <| gseq (gen_res_defs obj) <|
  gseq (gen_res_inst_count obj) <| gseq (gen_data_struct obj) <|
  gseq (gen_fields obj) <| gseq (gen_exec_cbs obj) <|
  gseq (gen_create_func obj) (gen_init_func obj)

/-- What one run of `main` leaves behind: either no output file (the run failed
before `open`), or a created file with the chunks written to it and the
exception (if any) that aborted the write part-way. -/
inductive RunOutcome where
  | noFile (e : PyError)
  | file (filename : String) (content : List String) (err : Option PyError)
  deriving Repr, DecidableEq

/-- Models `main` past the argument check: parse the `Object` element (absent
element means `root.find("Object")` returned `None`), derive the output
filename, create the file and write the stages in order. -/
def main_run (objElem : Option ObjNode) : RunOutcome :=
  match objElem with
  | none => .noFile .attributeError
  | some node =>
    match LWM2MObject.parse node with
    | .error e => .noFile e
    | .ok obj =>
      match name_format obj.name with
      | .error e => .noFile e
      | .ok nm =>
        let g := generate obj
        .file s!"lwm2m_obj_{nm}_stub.c" g.1 g.2

def RunOutcome.producedFile : RunOutcome → Bool
  | .noFile _ => false
  | .file _ _ _ => true

def RunOutcome.writtenChunks : RunOutcome → List String
  | .noFile _ => []
  | .file _ c _ => c

def RunOutcome.finalError : RunOutcome → Option PyError
  | .noFile e => some e
  | .file _ _ e => e

/-! ## Helper lemmas about the embedding combinators -/

theorem except_bind_ok {α β : Type} (x : Except PyError α)
    (f : α → Except PyError β) (b : β) :
    (x >>= f) = .ok b ↔ ∃ a, x = .ok a ∧ f a = .ok b := by
  cases x <;> simp [Bind.bind, Except.bind]

theorem except_bind_error {α β : Type} (x : Except PyError α)
    (f : α → Except PyError β) (e : PyError) :
    (x >>= f) = .error e ↔
      x = .error e ∨ ∃ a, x = .ok a ∧ f a = .error e := by
  cases x <;> simp [Bind.bind, Except.bind]

theorem gseq_ok (c : List String) (b : GenResult) :
    gseq (c, none) b = (c ++ b.1, b.2) := rfl

theorem gseq_err (c : List String) (e : PyError) (b : GenResult) :
    gseq (c, some e) b = (c, some e) := rfl

theorem gseq_nil (b : GenResult) : gseq ([], none) b = b := by
  cases b; rfl

theorem gfor_nil {α : Type} (f : α → GenResult) : gfor [] f = gpure [] := rfl

theorem gfor_cons {α : Type} (a : α) (l : List α) (f : α → GenResult) :
    gfor (a :: l) f = gseq (f a) (gfor l f) := rfl

/-- A loop whose body yields nothing for the elements a filter drops is the
loop over the filtered list. -/
theorem gfor_eq_gfor_filter {α : Type} (l : List α) (p : α → Bool)
    (f : α → GenResult) (h : ∀ a, p a = false → f a = gpure []) :
    gfor l f = gfor (l.filter p) f := by
  induction l with
  | nil => rfl
  | cons a rest ih =>
    cases hp : p a with
    | true => simp [List.filter_cons, hp, gfor_cons, ih]
    | false =>
      simp only [List.filter_cons, hp, if_neg, Bool.false_eq_true,
        not_false_iff, gfor_cons, h a hp]
      rw [show gpure [] = (([] : List String), (none : Option PyError)) from rfl,
        gseq_nil, ih]

theorem gfor_congr {α : Type} (l : List α) (f g : α → GenResult)
    (h : ∀ a ∈ l, f a = g a) : gfor l f = gfor l g := by
  induction l with
  | nil => rfl
  | cons a rest ih =>
    rw [gfor_cons, gfor_cons, h a (by simp), ih]
    intro x hx
    exact h x (by simp [hx])

/-- Collect a fallible computation over a list, stopping at the first raise
(the generic shape shared by the per-resource format calls). -/
def exceptList {α β : Type} (f : α → Except PyError β) :
    List α → Except PyError (List β)
  | [] => .ok []
  | a :: rest =>
    match f a with
    | .error e => .error e
    | .ok b =>
      match exceptList f rest with
      | .error e => .error e
      | .ok bs => .ok (b :: bs)

theorem exceptList_cons_ok {α β : Type} (f : α → Except PyError β) (a : α)
    (rest : List α) (ys : List β) :
    exceptList f (a :: rest) = .ok ys ↔
      ∃ b bs, f a = .ok b ∧ exceptList f rest = .ok bs ∧ ys = b :: bs := by
  constructor
  · intro h
    unfold exceptList at h
    cases hfa : f a with
    | error e => rw [hfa] at h; simp at h
    | ok b =>
      rw [hfa] at h
      cases hrest : exceptList f rest with
      | error e => rw [hrest] at h; simp at h
      | ok bs =>
        rw [hrest] at h
        simp at h
        exact ⟨b, bs, rfl, rfl, h.symm⟩
  · rintro ⟨b, bs, hb, hbs, rfl⟩
    unfold exceptList
    rw [hb, hbs]

/-- A loop that binds one fallible value per element and yields chunks built
from it: if every bind succeeds, the loop yields the concatenation of the
per-element chunks and raises nothing. -/
theorem gfor_of_exceptList {α β : Type} (f : α → Except PyError β)
    (g : β → List String) (l : List α) (ys : List β)
    (h : exceptList f l = .ok ys) :
    gfor l (fun a => gbind (f a) (fun x => gpure (g x))) =
      ((ys.map g).flatten, none) := by
  induction l generalizing ys with
  | nil =>
    unfold exceptList at h
    simp at h
    subst h
    rfl
  | cons a rest ih =>
    rw [exceptList_cons_ok] at h
    obtain ⟨b, bs, hb, hbs, rfl⟩ := h
    rw [gfor_cons]
    show gseq (gbind (f a) fun x => gpure (g x)) _ = _
    rw [hb]
    show gseq (gpure (g b)) _ = _
    rw [ih bs hbs]
    simp [gpure, gseq]

/-! ## The counting loop of gen_res_inst_count versus filters -/

theorem res_inst_foldl (rs : List LWM2MResource) (a : Nat)
    (l : List LWM2MResource) :
    rs.foldl res_inst_step (a, l) =
      (a + (rs.filter (fun r => is_exec r)).length,
       l ++ rs.filter (fun r => !is_exec r && !r.singleton)) := by
  induction rs generalizing a l with
  | nil => simp
  | cons r rest ih =>
    rw [List.foldl_cons]
    cases hex : is_exec r with
    | true =>
      rw [show res_inst_step (a, l) r = (a + 1, l) by
        simp [res_inst_step, hex]]
      rw [ih]
      simp [List.filter_cons, hex, Prod.ext_iff]
      omega
    | false =>
      cases hs : r.singleton with
      | true =>
        rw [show res_inst_step (a, l) r = (a, l) by
          simp [res_inst_step, hex, hs]]
        rw [ih]
        simp [List.filter_cons, hex, hs]
      | false =>
        rw [show res_inst_step (a, l) r = (a, l ++ [r]) by
          simp [res_inst_step, hex, hs]]
        rw [ih]
        simp [List.filter_cons, hex, hs]

theorem res_inst_classify_fst (rs : List LWM2MResource) :
    (res_inst_classify rs).1 = (rs.filter (fun r => is_exec r)).length := by
  unfold res_inst_classify
  rw [res_inst_foldl]
  simp

theorem res_inst_classify_snd (rs : List LWM2MResource) :
    (res_inst_classify rs).2 =
      rs.filter (fun r => !is_exec r && !r.singleton) := by
  unfold res_inst_classify
  rw [res_inst_foldl]
  simp

/-! ## Shape of a successful resource parse -/

theorem resource_parse_ok_shape (node : ResNode) (r : LWM2MResource)
    (h : LWM2MResource.parse node = .ok r) :
    ∃ rid nm mi md ty descr sb ops,
      pyIntOfOptStr node.attrID = .ok rid ∧
      findText node.eName = .ok nm ∧
      findText node.eOperations = .ok (some ops) ∧
      findText node.eMultipleInstances = .ok mi ∧
      findText node.eMandatory = .ok md ∧
      findText node.eType = .ok ty ∧
      findText node.eDescription = .ok descr ∧
      resourceTypeAttrs ty node.eRangeEnumeration = .ok sb ∧
      r = ⟨rid, nm, ops, mi == some "Single", md == some "Mandatory",
        ty, descr, sb.1, sb.2⟩ := by
  simp only [LWM2MResource.parse, except_bind_ok] at h
  obtain ⟨rid, h1, nm, h2, ops?, h3, mi, h4, md, h5, ty, h6, descr, h7, sb, h8,
    ops, h9, h⟩ := h
  have hops : ops? = some ops := by
    cases ops? with
    | none => simp [demandOpsText] at h9
    | some o => simp [demandOpsText, pure, Except.pure] at h9; rw [h9]
  have hres : r = ⟨rid, nm, ops, mi == some "Single", md == some "Mandatory",
      ty, descr, sb.1, sb.2⟩ := by
    split at h
    · simp [pure, Except.pure] at h; exact h.symm
    · split at h
      · simp at h
      · split at h
        · simp [pure, Except.pure] at h; exact h.symm
        · simp at h
  subst hops
  exact ⟨rid, nm, mi, md, ty, descr, sb, ops, h1, h2, h3, h4, h5, h6, h7, h8,
    hres⟩

/-! ## Classification of parse-phase errors

The parse phase (`LWM2MObject.__init__` together with the
`LWM2MResource.__init__` calls inside it) raises only malformed-document
errors: missing elements, unparsable numbers, failed assertions.  The
unhandled-resource-type exception is raised only by the render phase.  The
specification's SchemaError names exactly the parse-phase class. -/

/-- The specification's two fatal error kinds: every parse-phase error is a
SchemaError; the unhandled-resource-type exception is the
UnsupportedTypeError. -/
def isSchemaError (e : PyError) : Bool :=
  e != PyError.unhandledResourceType


theorem pyInt_error (s : String) (e : PyError) (h : pyInt s = .error e) :
    e = .valueError := by
  unfold pyInt at h
  split at h <;> (dsimp only at h; split at h <;> simp_all)

theorem pyIntOfOptStr_error (s : Option String) (e : PyError)
    (h : pyIntOfOptStr s = .error e) : e = .typeError ∨ e = .valueError := by
  cases s with
  | none => simp [pyIntOfOptStr] at h; exact Or.inl h.symm
  | some s => exact Or.inr (pyInt_error s e h)

theorem findText_error (x : Option (Option String)) (e : PyError)
    (h : findText x = .error e) : e = .attributeError := by
  cases x <;> simp [findText] at h
  exact h.symm

theorem py_byte_size_error (v : Int) (e : PyError)
    (h : py_byte_size v = .error e) : e = .mathDomainError := by
  unfold py_byte_size at h
  split at h
  · simp at h; exact h.symm
  · by_cases h1 : v.toNat = 1 <;> simp [h1] at h

theorem demandMatch_error {α : Type} (m : Option α) (e : PyError)
    (h : demandMatch m = .error e) : e = .attributeError := by
  cases m <;> simp [demandMatch, pure, Except.pure] at h
  exact h.symm

theorem pyAssert_error (c : Bool) (e : PyError)
    (h : pyAssert c = .error e) : e = .assertionError := by
  cases c <;> simp [pyAssert, pure, Except.pure] at h
  exact h.symm

theorem rangeAttrs_error (s : String) (e : PyError)
    (h : rangeAttrs s = .error e) : isSchemaError e = true := by
  simp only [rangeAttrs, except_bind_error] at h
  rcases h with h | ⟨g, _, h⟩
  · rw [demandMatch_error _ _ h]; decide
  rcases h with h | ⟨mn, _, h⟩
  · rw [pyInt_error _ _ h]; decide
  rcases h with h | ⟨mx, _, h⟩
  · rw [pyInt_error _ _ h]; decide
  rcases h with h | ⟨bs0, _, h⟩
  · rw [py_byte_size_error _ _ h]; decide
  rcases h with h | ⟨u, _, h⟩
  · rw [pyAssert_error _ _ h]; decide
  · simp [pure, Except.pure] at h

theorem integerAttrs_error (x : Option (Option String)) (e : PyError)
    (h : integerAttrs x = .error e) : isSchemaError e = true := by
  match x with
  | none => simp [integerAttrs] at h; subst h; decide
  | some none => simp [integerAttrs] at h
  | some (some s) => exact rangeAttrs_error s e h

theorem resourceTypeAttrs_error (ty : Option String)
    (x : Option (Option String)) (e : PyError)
    (h : resourceTypeAttrs ty x = .error e) : isSchemaError e = true := by
  unfold resourceTypeAttrs at h
  split at h
  · exact integerAttrs_error x e h
  · simp [pure, Except.pure] at h

theorem demandOpsText_error (x : Option String) (e : PyError)
    (h : demandOpsText x = .error e) : e = .attributeError := by
  cases x <;> simp [demandOpsText, pure, Except.pure] at h
  exact h.symm

theorem resource_parse_error (node : ResNode) (e : PyError)
    (h : LWM2MResource.parse node = .error e) : isSchemaError e = true := by
  simp only [LWM2MResource.parse, except_bind_error] at h
  rcases h with h | ⟨rid, _, h⟩
  · rcases pyIntOfOptStr_error _ _ h with rfl | rfl <;> decide
  rcases h with h | ⟨nm, _, h⟩
  · rw [findText_error _ _ h]; decide
  rcases h with h | ⟨ops?, _, h⟩
  · rw [findText_error _ _ h]; decide
  rcases h with h | ⟨mi, _, h⟩
  · rw [findText_error _ _ h]; decide
  rcases h with h | ⟨md, _, h⟩
  · rw [findText_error _ _ h]; decide
  rcases h with h | ⟨ty, _, h⟩
  · rw [findText_error _ _ h]; decide
  rcases h with h | ⟨descr, _, h⟩
  · rw [findText_error _ _ h]; decide
  rcases h with h | ⟨sb, _, h⟩
  · exact resourceTypeAttrs_error _ _ _ h
  rcases h with h | ⟨ops, _, h⟩
  · rw [demandOpsText_error _ _ h]; decide
  split at h
  · simp [pure, Except.pure] at h
  · split at h
    · simp at h; subst h; decide
    · split at h
      · simp [pure, Except.pure] at h
      · simp at h; subst h; decide

theorem parseResources_error (ns : List ResNode) (e : PyError)
    (h : parseResources ns = .error e) : isSchemaError e = true := by
  induction ns with
  | nil => simp [parseResources] at h
  | cons n rest ih =>
    unfold parseResources at h
    split at h
    · simp at h; subst h
      next heq => exact resource_parse_error n _ heq
    · split at h
      · simp at h; subst h
        next heq => exact ih heq
      · simp at h

theorem object_parse_error (node : ObjNode) (e : PyError)
    (h : LWM2MObject.parse node = .error e) : isSchemaError e = true := by
  simp only [LWM2MObject.parse, except_bind_error] at h
  rcases h with h | ⟨nm, _, h⟩
  · rw [findText_error _ _ h]; decide
  rcases h with h | ⟨d1, _, h⟩
  · rw [findText_error _ _ h]; decide
  rcases h with h | ⟨idText, _, h⟩
  · rw [findText_error _ _ h]; decide
  rcases h with h | ⟨oid, _, h⟩
  · rcases pyIntOfOptStr_error _ _ h with rfl | rfl <;> decide
  rcases h with h | ⟨urn, _, h⟩
  · rw [findText_error _ _ h]; decide
  rcases h with h | ⟨ver, _, h⟩
  · rw [findText_error _ _ h]; decide
  rcases h with h | ⟨mi, _, h⟩
  · rw [findText_error _ _ h]; decide
  rcases h with h | ⟨md, _, h⟩
  · rw [findText_error _ _ h]; decide
  rcases h with h | ⟨rs, _, h⟩
  · exact parseResources_error _ _ h
  simp [pure, Except.pure] at h

/-! ## Shape of successful parses -/

theorem demandMatch_ok {α : Type} (m : Option α) (a : α)
    (h : demandMatch m = .ok a) : m = some a := by
  cases m <;> simp [demandMatch, pure, Except.pure] at h
  rw [h]

theorem pyAssert_ok (c : Bool) (u : Unit) (h : pyAssert c = .ok u) :
    c = true := by
  cases c
  · simp [pyAssert, pure, Except.pure] at h
  · rfl

theorem rangeAttrs_ok_shape (s : String) (sb : Option Bool × Option Int)
    (h : rangeAttrs s = .ok sb) :
    ∃ g mn mx bs0, matchRange s = some g ∧ pyInt g.1 = .ok mn ∧
      pyInt g.2 = .ok mx ∧ py_byte_size mx = .ok bs0 ∧
      (if mn < 0 then bs0 * 2 else bs0) ≤ 64 ∧
      sb = (some (decide (mn < 0)),
        some (if mn < 0 then bs0 * 2 else bs0)) := by
  simp only [rangeAttrs, except_bind_ok] at h
  obtain ⟨g, hg, mn, hmn, mx, hmx, bs0, hbs, u, hassert, h⟩ := h
  simp [pure, Except.pure] at h
  have hc := pyAssert_ok _ _ hassert
  simp at hc
  exact ⟨g, mn, mx, bs0, demandMatch_ok _ _ hg, hmn, hmx, hbs, hc, h.symm⟩

theorem parseResources_ok_mem (ns : List ResNode) (n : ResNode) :
    n ∈ ns → ∀ rs, parseResources ns = .ok rs →
      ∃ r, LWM2MResource.parse n = .ok r := by
  induction ns with
  | nil => intro hmem; simp at hmem
  | cons hd tl ih =>
    intro hmem rs h
    unfold parseResources at h
    cases ha : LWM2MResource.parse hd with
    | error e => rw [ha] at h; simp at h
    | ok r =>
      rw [ha] at h
      cases hrest : parseResources tl with
      | error e => rw [hrest] at h; simp at h
      | ok rs' =>
        rcases List.mem_cons.mp hmem with rfl | hmem'
        · exact ⟨r, ha⟩
        · exact ih hmem' rs' hrest

theorem object_parse_ok_shape (node : ObjNode) (obj : LWM2MObject)
    (h : LWM2MObject.parse node = .ok obj) :
    ∃ nm d1 idText oid urn ver mi md rs,
      findText node.eName = .ok nm ∧
      findText node.eDescription1 = .ok d1 ∧
      findText node.eObjectID = .ok idText ∧
      pyIntOfOptStr idText = .ok oid ∧
      findText node.eObjectURN = .ok urn ∧
      findText node.eObjectVersion = .ok ver ∧
      findText node.eMultipleInstances = .ok mi ∧
      findText node.eMandatory = .ok md ∧
      parseResources node.resourceItems = .ok rs ∧
      obj = ⟨nm, d1, oid, urn, ver, mi == some "Single",
        md == some "Mandatory", rs⟩ := by
  simp only [LWM2MObject.parse, except_bind_ok] at h
  obtain ⟨nm, h1, d1, h2, idText, h3, oid, h4, urn, h5, ver, h6, mi, h7,
    md, h8, rs, h9, h⟩ := h
  simp [pure, Except.pure] at h
  exact ⟨nm, d1, idText, oid, urn, ver, mi, md, rs,
    h1, h2, h3, h4, h5, h6, h7, h8, h9, h.symm⟩

/-- The byte-size computation is the least multiple of 8 whose power of two
reaches the maximum value. -/
theorem py_byte_size_spec (v : Int) (hv : 0 < v) :
    ∃ k : Nat, py_byte_size v = .ok (8 * (k : Int)) ∧ v ≤ 2 ^ (8 * k) ∧
      ∀ j : Nat, v ≤ 2 ^ (8 * j) → k ≤ j := by
  have hv0 : ¬ v ≤ 0 := by omega
  have hm1 : 1 ≤ v.toNat := by omega
  by_cases hm : v.toNat = 1
  · refine ⟨0, ?_, ?_, ?_⟩
    · simp [py_byte_size, hv0, hm]
    · have : v = 1 := by omega
      simp [this]
    · intro j _; exact Nat.zero_le j
  · have hm2 : 2 ≤ v.toNat := by omega
    set m := v.toNat with hmdef
    set L := floorLog2 (m - 1) with hL
    have hveq : (m : Int) = v := by omega
    refine ⟨L / 8 + 1, ?_, ?_, ?_⟩
    · simp [py_byte_size, hv0, hm]
    · have h1 : m - 1 < 2 ^ (L + 1) := by
        rw [hL, floorLog2_eq_log2, Nat.log2_eq_log_two]
        exact Nat.lt_pow_succ_log_self (by norm_num) (m - 1)
      have h2 : L + 1 ≤ 8 * (L / 8 + 1) := by omega
      have h3 : (2 : Nat) ^ (L + 1) ≤ 2 ^ (8 * (L / 8 + 1)) :=
        Nat.pow_le_pow_right (by norm_num) h2
      have h4 : m ≤ 2 ^ (8 * (L / 8 + 1)) := by omega
      have h5 : (m : Int) ≤ 2 ^ (8 * (L / 8 + 1)) := by exact_mod_cast h4
      omega
    · intro j hj
      by_contra hcon
      push_neg at hcon
      have h6 : (2 : Nat) ^ (8 * j) ≤ 2 ^ L :=
        Nat.pow_le_pow_right (by norm_num) (by omega)
      have h7 : 2 ^ L ≤ m - 1 := by
        rw [hL, floorLog2_eq_log2, Nat.log2_eq_log_two]
        exact Nat.pow_log_le_self 2 (by omega)
      have h8 : (2 : Nat) ^ (8 * j) ≤ m - 1 := le_trans h6 h7
      have hmj : m ≤ 2 ^ (8 * j) := by
        have h10 : (m : Int) ≤ 2 ^ (8 * j) := by rw [hveq]; exact hj
        exact_mod_cast h10
      have := le_trans hmj h8
      omega

deriving instance DecidableEq for Except

/-! ## Concrete example inputs -/

/-- A well-formed `Resources/Item` element (every child element present, the
description text fixed to "d"). -/
def itemNode (idStr nm ops mi md ty : String) (range : Option String) :
    ResNode :=
  ⟨some idStr, some (some nm), some (some ops), some (some mi), some (some md),
    some (some ty), some (some "d"), some range⟩

def c4node : ResNode :=
  itemNode "1" "Sensor Value" "R" "Single" "Mandatory" "Integer" none

def c4res : LWM2MResource :=
  ⟨1, some "Sensor Value", "R", true, true, some "Integer", some "d",
    some true, some 32⟩

/-- C4: for every Integer field with no declared range (the RangeEnumeration
element is present with empty text), the derived attributes default to
signed = true and byteWidth = 32. -/
theorem C4_integer_defaults (node : ResNode) (r : LWM2MResource)
    (h : LWM2MResource.parse node = .ok r) (hty : r.type = some "Integer")
    (hrange : node.eRangeEnumeration = some none) :
    r.signed = some true ∧ r.byte_size = some 32 := by
  obtain ⟨rid, nm, mi, md, ty, descr, sb, ops, h1, h2, h3, h4, h5, h6, h7, h8,
    hres⟩ := resource_parse_ok_shape node r h
  subst hres
  simp only at hty
  rw [hty, hrange] at h8
  simp [resourceTypeAttrs, integerAttrs] at h8
  simp [← h8]

theorem C4_witness :
    LWM2MResource.parse c4node = .ok c4res ∧
    c4res.signed = some true ∧ c4res.byte_size = some 32 :=
  ⟨by decide, C4_integer_defaults c4node c4res (by decide) (by decide) (by decide)⟩

def c2node : ResNode :=
  itemNode "7" "Counter Total" "R" "Single" "Mandatory" "Integer"
    (some "0..100000")

def c2res : LWM2MResource :=
  ⟨7, some "Counter Total", "R", true, true, some "Integer", some "d",
    some false, some 24⟩

theorem C2_counterexample :
    LWM2MResource.parse c2node = .ok c2res ∧
    c2res.byte_size = some 24 ∧
    ¬ ((24 : Int) = 8 ∨ (24 : Int) = 16 ∨ (24 : Int) = 32 ∨ (24 : Int) = 64) :=
  ⟨by decide, rfl, by decide⟩

theorem C2_integer_layout :
    (∀ (node : ResNode) (r : LWM2MResource) (rs mn mx : String)
        (min_val max_val : Int),
      LWM2MResource.parse node = .ok r →
      r.type = some "Integer" →
      node.eRangeEnumeration = some (some rs) →
      matchRange rs = some (mn, mx) →
      pyInt mn = .ok min_val → pyInt mx = .ok max_val →
      r.signed = some (decide (min_val < 0)) ∧
      ∃ b : Int, py_byte_size max_val = .ok b ∧
        r.byte_size = some (if min_val < 0 then b * 2 else b) ∧
        (if min_val < 0 then b * 2 else b) ≤ 64) ∧
    (∀ v : Int, 0 < v → ∃ k : Nat, py_byte_size v = .ok (8 * (k : Int)) ∧
      v ≤ 2 ^ (8 * k) ∧ ∀ j : Nat, v ≤ 2 ^ (8 * j) → k ≤ j) ∧
    (∀ (node : ResNode) (rs mn mx : String) (min_val max_val b : Int),
      node.eType = some (some "Integer") →
      node.eRangeEnumeration = some (some rs) →
      matchRange rs = some (mn, mx) →
      pyInt mn = .ok min_val → pyInt mx = .ok max_val →
      py_byte_size max_val = .ok b →
      64 < (if min_val < 0 then b * 2 else b) →
      ∀ r, LWM2MResource.parse node ≠ .ok r) := by
  refine ⟨?_, py_byte_size_spec, ?_⟩
  · intro node r rs mn mx min_val max_val h hty hrange hmatch hmn hmx
    obtain ⟨rid, nm, mi, md, ty, descr, sb, ops, h1, h2, h3, h4, h5, h6, h7,
      h8, hres⟩ := resource_parse_ok_shape node r h
    subst hres
    simp only at hty
    rw [hty, hrange] at h8
    simp only [resourceTypeAttrs, integerAttrs] at h8
    rw [if_pos (by rfl)] at h8
    obtain ⟨g, mn', mx', bs0, hg, hmn', hmx', hbs, hle, hsb⟩ :=
      rangeAttrs_ok_shape rs sb h8
    rw [hmatch] at hg
    have hgeq : g = (mn, mx) := by
      cases hg
      rfl
    subst hgeq
    simp only at hmn' hmx'
    rw [hmn] at hmn'
    rw [hmx] at hmx'
    cases hmn'
    cases hmx'
    refine ⟨by simp [hsb], bs0, hbs, by simp [hsb], hle⟩
  · intro node rs mn mx min_val max_val b hty hrange hmatch hmn hmx hbs hgt
    intro r h
    obtain ⟨rid, nm, mi, md, ty, descr, sb, ops, h1, h2, h3, h4, h5, h6, h7,
      h8, hres⟩ := resource_parse_ok_shape node r h
    rw [hty] at h6
    simp [findText] at h6
    rw [← h6, hrange] at h8
    simp only [resourceTypeAttrs, integerAttrs] at h8
    rw [if_pos (by rfl)] at h8
    obtain ⟨g, mn', mx', bs0, hg, hmn', hmx', hbs', hle, hsb⟩ :=
      rangeAttrs_ok_shape rs sb h8
    rw [hmatch] at hg
    have hgeq : g = (mn, mx) := by
      cases hg
      rfl
    subst hgeq
    simp only at hmn' hmx'
    rw [hmn] at hmn'
    rw [hmx] at hmx'
    cases hmn'
    cases hmx'
    rw [hbs] at hbs'
    cases hbs'
    omega

theorem C2_witness :
    c2res.signed = some (decide ((0 : Int) < 0)) ∧
    ∃ b : Int, py_byte_size 100000 = .ok b ∧
      c2res.byte_size = some (if (0 : Int) < 0 then b * 2 else b) ∧
      (if (0 : Int) < 0 then b * 2 else b) ≤ 64 :=
  C2_integer_layout.1 c2node c2res "0..100000" "0" "100000" 0 100000
    (by decide) (by decide) (by decide) (by decide) (by decide) (by decide)

/-- The seven value-type spellings the generators recognize. -/
def recognizedTypes : List String :=
  ["String", "Integer", "Objlnk", "Float", "Opaque", "Time", "Boolean"]

/-- Both per-field type dispatches raise the unhandled-resource-type exception
for any value type outside the recognized enumeration. -/
theorem type_dispatch_unhandled (res : LWM2MResource) (ty : String)
    (hty : res.type = some ty) (hmem : ty ∉ recognizedTypes) :
    data_struct_member_type res = .error .unhandledResourceType ∧
    field_type_tag res = .error .unhandledResourceType := by
  simp only [recognizedTypes, List.mem_cons, List.not_mem_nil, or_false,
    not_or] at hmem
  obtain ⟨n1, n2, n3, n4, n5, n6, n7⟩ := hmem
  have e1 : (res.type == some "String") = false := by
    simp [hty, n1]
  have e2 : (res.type == some "Integer") = false := by
    simp [hty, n2]
  have e3 : (res.type == some "Objlnk") = false := by
    simp [hty, n3]
  have e4 : (res.type == some "Float") = false := by
    simp [hty, n4]
  have e5 : (res.type == some "Opaque") = false := by
    simp [hty, n5]
  have e6 : (res.type == some "Time") = false := by
    simp [hty, n6]
  have e7 : (res.type == some "Boolean") = false := by
    simp [hty, n7]
  constructor
  · simp only [data_struct_member_type, e1, e2, e3, e4, e5, e6, e7]
    rfl
  · simp only [field_type_tag, e1, e2, e3, e4, e5, e6, e7]
    rfl

def c9node : ResNode :=
  itemNode "3" "Lower Field" "RW" "Single" "Mandatory" "integer"
    (some "0..255")

def c9res : LWM2MResource :=
  ⟨3, some "Lower Field", "RW", true, true, some "integer", some "d",
    none, none⟩

/-- C9: value-type dispatch is exact and case-sensitive over the seven
spellings: a field typed "integer" gets no Integer-derived attributes and both
render-time dispatches raise the fatal unhandled-resource-type error, while
execute detection is case-insensitive ("e" counts as execute). -/
theorem C9_case_sensitive_types :
    (∀ (node : ResNode) (r : LWM2MResource),
      LWM2MResource.parse node = .ok r → r.type = some "integer" →
      r.signed = none ∧ r.byte_size = none) ∧
    (∀ res : LWM2MResource, res.type = some "integer" →
      data_struct_member_type res = .error .unhandledResourceType ∧
      field_type_tag res = .error .unhandledResourceType) ∧
    (∀ res : LWM2MResource, res.operations = "e" → is_exec res = true) := by
  refine ⟨?_, ?_, ?_⟩
  · intro node r h hty
    obtain ⟨rid, nm, mi, md, ty, descr, sb, ops, h1, h2, h3, h4, h5, h6, h7,
      h8, hres⟩ := resource_parse_ok_shape node r h
    subst hres
    simp only at hty
    rw [hty] at h8
    simp [resourceTypeAttrs, pure, Except.pure] at h8
    simp [← h8]
  · intro res hty
    exact type_dispatch_unhandled res "integer" hty (by decide)
  · intro res hops
    simp [is_exec, hops, pyUpper]

theorem C9_witness :
    (LWM2MResource.parse c9node = .ok c9res ∧
      c9res.signed = none ∧ c9res.byte_size = none) ∧
    (data_struct_member_type c9res = .error .unhandledResourceType ∧
      field_type_tag c9res = .error .unhandledResourceType) :=
  ⟨⟨by decide, C9_case_sensitive_types.1 c9node c9res (by decide) (by decide)⟩,
    C9_case_sensitive_types.2.1 c9res (by decide)⟩

/-- C10: for every non-execute field, the access-mode string is emitted
verbatim into the OBJ_FIELD_DATA descriptor, with the suffix "_OPT" appended
exactly when the field is not mandatory. -/
theorem C10_access_mode_verbatim (obj : LWM2MObject) (res : LWM2MResource)
    (idn typ : String) (hexec : is_exec res = false)
    (hidn : gen_res_id_name obj res = .ok idn)
    (htyp : field_type_tag res = .ok typ) :
    gen_field obj res =
      .ok ("OBJ_FIELD_DATA(" ++ idn ++ ", " ++ res.operations ++
        (if res.mandatory then "" else "_OPT") ++ ", " ++ typ ++ ")") := by
  unfold gen_field
  rw [hexec]
  simp only [Bool.false_eq_true, if_neg, not_false_iff]
  rw [htyp]
  simp only [hidn, Except.map, Except.map_ok]
  cases hm : res.mandatory <;> simp [hm, toString, String.append_assoc]

def c10res : LWM2MResource :=
  ⟨4, some "Mode Name", "rW", true, false, some "String", some "d",
    none, none⟩

def c10obj : LWM2MObject :=
  ⟨some "Test Object", some "d", 9999, some "urn", some "1.0", true, true,
    [c10res]⟩

theorem C10_witness :
    gen_field c10obj c10res =
      .ok ("OBJ_FIELD_DATA(" ++ "TEST_OBJECT_MODE_NAME_ID" ++ ", " ++
        c10res.operations ++ (if c10res.mandatory then "" else "_OPT") ++
        ", " ++ "STRING" ++ ")") :=
  C10_access_mode_verbatim c10obj c10res "TEST_OBJECT_MODE_NAME_ID" "STRING"
    (by decide) (by decide) (by decide)

/-- C5: a case-insensitive comparison of the operations string against "E"
identifies execute-only fields; execute fields are excluded from the generated
data structure, get an OBJ_FIELD_EXECUTE descriptor (optional variant when not
mandatory), and get a generated callback stub exactly when mandatory. -/
theorem C5_execute_fields :
    (∀ res : LWM2MResource, is_exec res = true ↔ pyUpper res.operations = "E") ∧
    (∀ obj : LWM2MObject, gen_data_struct obj =
      gen_data_struct
        {obj with resources := obj.resources.filter (fun r => !is_exec r)}) ∧
    (∀ (obj : LWM2MObject) (res : LWM2MResource) (idn : String),
      is_exec res = true → gen_res_id_name obj res = .ok idn →
      gen_field obj res =
        .ok ("OBJ_FIELD_EXECUTE" ++ (if res.mandatory then "" else "_OPT") ++
          "(" ++ idn ++ ")")) ∧
    (∀ obj : LWM2MObject, gen_exec_cbs obj =
      gfor (obj.resources.filter (fun r => is_exec r && r.mandatory))
        exec_cb_stub) := by
  refine ⟨?_, ?_, ?_, ?_⟩
  · intro res
    simp [is_exec]
  · intro obj
    unfold gen_data_struct
    rw [gfor_eq_gfor_filter obj.resources (fun r => !is_exec r) _ ?_]
    · rfl
    · intro a ha
      have ha' : is_exec a = true := by simpa using ha
      exact if_pos ha'
  · intro obj res idn hexec hidn
    unfold gen_field
    rw [hexec]
    simp only [if_pos]
    simp only [hidn, Except.map, Except.map_ok]
    cases hm : res.mandatory <;> simp [hm, toString, String.append_assoc]
  · intro obj
    unfold gen_exec_cbs
    rw [gfor_eq_gfor_filter obj.resources
      (fun r => is_exec r && r.mandatory) _ ?_]
    · apply gfor_congr
      intro a ha
      simp only [List.mem_filter, Bool.and_eq_true] at ha
      simp [ha.2.1, ha.2.2]
    · intro a ha
      simp only [Bool.and_eq_false_iff] at ha
      rcases ha with ha | ha <;> simp [ha]

def c5res : LWM2MResource :=
  ⟨2, some "Do Action", "e", true, true, some "String", some "d", none, none⟩

theorem C5_witness :
    gen_field c10obj c5res =
      .ok ("OBJ_FIELD_EXECUTE" ++ (if c5res.mandatory then "" else "_OPT") ++
        "(" ++ "TEST_OBJECT_DO_ACTION_ID" ++ ")") :=
  C5_execute_fields.2.2.1 c10obj c5res "TEST_OBJECT_DO_ACTION_ID"
    (by decide) (by decide)

def corgeItem : ResNode :=
  itemNode "1" "Bad Field" "RW" "Single" "Mandatory" "Corge" none

def okItem : ResNode :=
  itemNode "0" "Level" "R" "Single" "Mandatory" "Integer" (some "0..255")

def corgeRoot : ObjNode :=
  ⟨some (some "Test Object"), some (some "d"), some (some "9999"),
    some (some "urn"), some (some "1.0"), some (some "Multiple"),
    some (some "Mandatory"), [okItem, corgeItem]⟩

def corgeRes : LWM2MResource :=
  ⟨1, some "Bad Field", "RW", true, true, some "Corge", some "d", none, none⟩

/-- C3 counterexample: on a document with a field typed "Corge" the run does
raise the unhandled-resource-type error, but an output file has been created
and the chunks written by the stages before the failure remain in it. -/
theorem C3_counterexample :
    (main_run (some corgeRoot)).producedFile = true ∧
    (main_run (some corgeRoot)).writtenChunks ≠ [] ∧
    (main_run (some corgeRoot)).finalError = some .unhandledResourceType :=
  ⟨by decide, by decide, by decide⟩

/-- C3 (amended): a value type outside the recognized enumeration makes both
per-field dispatches raise the unhandled-resource-type exception, aborting the
run; but the output file is created as soon as the parse and the filename
derivation succeed, so the chunks of the stages before the failure remain on
disk (no cleanup happens). -/
theorem C3_unhandled_type_partial_output :
    (∀ (res : LWM2MResource) (ty : String), res.type = some ty →
      ty ∉ recognizedTypes →
      data_struct_member_type res = .error .unhandledResourceType ∧
      field_type_tag res = .error .unhandledResourceType) ∧
    (∀ (node : ObjNode) (obj : LWM2MObject) (nm : String),
      LWM2MObject.parse node = .ok obj →
      name_format obj.name = .ok nm →
      main_run (some node) =
        .file ("lwm2m_obj_" ++ nm ++ "_stub.c")
          (generate obj).1 (generate obj).2) := by
  refine ⟨type_dispatch_unhandled, ?_⟩
  intro node obj nm hp hn
  simp [main_run, hp, hn, toString]

theorem C3_witness :
    data_struct_member_type corgeRes = .error .unhandledResourceType ∧
    field_type_tag corgeRes = .error .unhandledResourceType :=
  C3_unhandled_type_partial_output.1 corgeRes "Corge" (by decide) (by decide)

/-- C6: generation is deterministic: the run outcome (output filename, written
chunks and final error) is a pure function of the input document, so two runs
over the same document produce byte-identical output. -/
theorem C6_deterministic (d1 d2 : Option ObjNode) (h : d1 = d2) :
    main_run d1 = main_run d2 ∧
    (main_run d1).writtenChunks = (main_run d2).writtenChunks := by
  subst h
  exact ⟨rfl, rfl⟩

theorem C6_witness :
    main_run (some corgeRoot) = main_run (some corgeRoot) ∧
    (main_run (some corgeRoot)).writtenChunks =
      (main_run (some corgeRoot)).writtenChunks :=
  C6_deterministic (some corgeRoot) (some corgeRoot) rfl

/-- C8: a document missing a required element (any object-level element, or
any of the always-read elements of a resource item) makes the run fail with a
schema error before any output file is created. -/
theorem C8_missing_required_element :
    (∀ root : ObjNode,
      (root.eName = none ∨ root.eDescription1 = none ∨
        root.eObjectID = none ∨ root.eObjectURN = none ∨
        root.eObjectVersion = none ∨ root.eMultipleInstances = none ∨
        root.eMandatory = none) →
      ∃ e, main_run (some root) = .noFile e ∧ isSchemaError e = true) ∧
    (∀ (root : ObjNode) (n : ResNode), n ∈ root.resourceItems →
      (n.eName = none ∨ n.eOperations = none ∨ n.eMultipleInstances = none ∨
        n.eMandatory = none ∨ n.eType = none ∨ n.eDescription = none) →
      ∃ e, main_run (some root) = .noFile e ∧ isSchemaError e = true) := by
  constructor
  · intro root hdisj
    cases hp : LWM2MObject.parse root with
    | error e =>
      exact ⟨e, by simp [main_run, hp], object_parse_error root e hp⟩
    | ok obj =>
      exfalso
      obtain ⟨nm, d1, idText, oid, urn, ver, mi, md, rs, h1, h2, h3, h4, h5,
        h6, h7, h8, h9, hobj⟩ := object_parse_ok_shape root obj hp
      rcases hdisj with hc | hc | hc | hc | hc | hc | hc
      · rw [hc] at h1; simp [findText] at h1
      · rw [hc] at h2; simp [findText] at h2
      · rw [hc] at h3; simp [findText] at h3
      · rw [hc] at h5; simp [findText] at h5
      · rw [hc] at h6; simp [findText] at h6
      · rw [hc] at h7; simp [findText] at h7
      · rw [hc] at h8; simp [findText] at h8
  · intro root n hmem hdisj
    cases hp : LWM2MObject.parse root with
    | error e =>
      exact ⟨e, by simp [main_run, hp], object_parse_error root e hp⟩
    | ok obj =>
      exfalso
      obtain ⟨nm, d1, idText, oid, urn, ver, mi, md, rs, h1, h2, h3, h4, h5,
        h6, h7, h8, h9, hobj⟩ := object_parse_ok_shape root obj hp
      obtain ⟨r, hr⟩ := parseResources_ok_mem root.resourceItems n hmem rs h9
      obtain ⟨rid, rnm, rmi, rmd, rty, rdescr, rsb, rops, g1, g2, g3, g4, g5,
        g6, g7, g8, hres⟩ := resource_parse_ok_shape n r hr
      rcases hdisj with hc | hc | hc | hc | hc | hc
      · rw [hc] at g2; simp [findText] at g2
      · rw [hc] at g3; simp [findText] at g3
      · rw [hc] at g4; simp [findText] at g4
      · rw [hc] at g5; simp [findText] at g5
      · rw [hc] at g6; simp [findText] at g6
      · rw [hc] at g7; simp [findText] at g7

def c8root : ObjNode :=
  ⟨some (some "Test Object"), some (some "d"), some (some "1"),
    some (some "u"), some (some "v"), some (some "Single"), none, []⟩

theorem C8_witness :
    ∃ e, main_run (some c8root) = .noFile e ∧ isSchemaError e = true :=
  C8_missing_required_element.1 c8root (by decide)

theorem mem_gseq_left (a b : GenResult) (x : String) (h : x ∈ a.1) :
    x ∈ (gseq a b).1 := by
  cases ha : a.2 with
  | none =>
    unfold gseq
    rw [ha]
    exact List.mem_append_left _ h
  | some e =>
    unfold gseq
    rw [ha]
    exact h

theorem mem_gseq_right (a b : GenResult) (x : String) (ha : a.2 = none)
    (h : x ∈ b.1) : x ∈ (gseq a b).1 := by
  unfold gseq
  rw [ha]
  exact List.mem_append_right _ h

theorem gfor_ok_of_forall {α : Type} (l : List α) (f : α → GenResult)
    (h : ∀ a ∈ l, (f a).2 = none) : ∃ cs, gfor l f = (cs, none) := by
  induction l with
  | nil => exact ⟨[], rfl⟩
  | cons a rest ih =>
    obtain ⟨cs, hcs⟩ := ih (fun x hx => h x (by simp [hx]))
    cases hfa : f a with
    | mk c1 c2 =>
      have hc2 : c2 = none := by
        have := h a (by simp)
        rw [hfa] at this
        exact this
      subst hc2
      rw [gfor_cons, hfa, hcs, gseq_ok]
      exact ⟨c1 ++ cs, rfl⟩

def gappyRes : LWM2MResource :=
  ⟨5, some "Thing", "R", true, true, some "Boolean", some "d", none, none⟩

def gappyObj : LWM2MObject :=
  ⟨some "Gappy", some "d", 1, some "u", some "v", true, true, [gappyRes]⟩

/-- C7: the emitted MAX_ID constant is defined as the number of fields of the
object, not as the maximum of the actual field id values (the gappy example
has one field with id 5 and the constant is 1). -/
theorem C7_max_field_id :
    (∀ (obj : LWM2MObject) (d : String) (n : Nat),
      def_format obj.name = .ok d →
      n = obj.resources.length →
      (∀ r ∈ obj.resources, ∃ idn, gen_res_id_name obj r = .ok idn) →
      s!"#define {d}_MAX_ID {n}\n" ∈ (gen_res_defs obj).1) ∧
    ("#define GAPPY_MAX_ID 1\n" ∈ (gen_res_defs gappyObj).1 ∧
      "#define GAPPY_MAX_ID 5\n" ∉ (gen_res_defs gappyObj).1) := by
  constructor
  · intro obj d n hd hn hids
    unfold gen_res_defs
    apply mem_gseq_right _ _ _ rfl
    apply mem_gseq_right
    · simp [gen_obj_id_def, hd, gbind, Except.map, gpure]
    apply mem_gseq_right _ _ _ rfl
    obtain ⟨cs, hcs⟩ := gfor_ok_of_forall obj.resources
      (fun res => gbind (gen_res_id_name obj res) fun idn =>
        gpure [s!"#define {idn} {res.id}\n"])
      (by
        intro r hr
        obtain ⟨idn, hidn⟩ := hids r hr
        simp [gbind, hidn, gpure])
    rw [hcs]
    apply mem_gseq_right _ _ _ rfl
    apply mem_gseq_left
    have hmax : gen_max_id obj = .ok (d ++ "_MAX_ID") := by
      simp [gen_max_id, hd, Except.map, toString]
    rw [hmax]
    subst hn
    simp [gbind, gpure, toString, String.append_assoc]
  · constructor
    · decide
    · decide

theorem C7_witness :
    s!"#define GAPPY_MAX_ID {(1 : Nat)}\n" ∈ (gen_res_defs gappyObj).1 :=
  C7_max_field_id.1 gappyObj "GAPPY" 1 (by decide) (by decide)
    (by
      intro r hr
      simp only [gappyObj] at hr
      simp at hr
      subst hr
      exact ⟨"GAPPY_THING_ID", by decide⟩)

theorem flatten_map_singleton {β : Type} (ys : List β) (g : β → String) :
    (ys.map (fun y => [g y])).flatten = ys.map g := by
  induction ys with
  | nil => rfl
  | cons y rest ih => simp [ih]

theorem exceptList_ok_length {α β : Type} (f : α → Except PyError β)
    (l : List α) (ys : List β) (h : exceptList f l = .ok ys) :
    ys.length = l.length := by
  induction l generalizing ys with
  | nil =>
    unfold exceptList at h
    simp at h
    simp [← h]
  | cons a rest ih =>
    rw [exceptList_cons_ok] at h
    obtain ⟨b, bs, hb, hbs, rfl⟩ := h
    simp [ih bs hbs]

/-- Modelled from the specification's words (the refinement target): the
resource-instance-count formula exactly as the spec states it, field count
minus execute count minus non-singleton data count plus the sum of the
per-field maximum-instance values. -/
def spec_resource_instance_count (obj : LWM2MObject)
    (maxInstance : LWM2MResource → Int) : Int :=
  (obj.resources.length : Int)
    - ((obj.resources.filter (fun r => is_exec r)).length : Int)
    - ((obj.resources.filter (fun r => !is_exec r && !r.singleton)).length : Int)
    + ((obj.resources.filter (fun r => !is_exec r && !r.singleton)).map
        maxInstance).sum

/-- The arithmetic value of the emitted RESOURCE_INSTANCE_COUNT define, read
with the MAX_ID symbol at its emitted value (the field count, see the MAX_ID
claim) and each referenced per-field maximum constant valued by
`maxInstance`; the two counts are the ones computed by the source's loop. -/
def emitted_resource_instance_count (obj : LWM2MObject)
    (maxInstance : LWM2MResource → Int) : Int :=
  (obj.resources.length : Int)
    - ((res_inst_classify obj.resources).1 : Int)
    - ((res_inst_classify obj.resources).2.length : Int)
    + ((res_inst_classify obj.resources).2.map maxInstance).sum

/-- C1: the emitted RESOURCE_INSTANCE_COUNT define consists of the MAX_ID
symbol minus the execute-field count minus the non-singleton data-field
count (the two subtractive terms first), followed by one additive term per
non-singleton data field; and its value equals the specification formula
fieldCount - execCount - nonSingletonDataCount + sum of the per-field
maximum-instance constants. -/
theorem C1_resource_instance_count :
    (∀ (obj : LWM2MObject) (mid : String) (e m : Nat)
        (maxNames : List String),
      gen_max_id obj = .ok mid →
      e = (obj.resources.filter (fun r => is_exec r)).length →
      m = (obj.resources.filter (fun r => !is_exec r && !r.singleton)).length →
      exceptList (gen_res_max_name obj)
        (obj.resources.filter (fun r => !is_exec r && !r.singleton)) =
        .ok maxNames →
      gen_res_inst_count obj =
        (["/*\n", " * Calculate resource instances as follows:\n",
          " * start with DEVICE_MAX_ID\n",
          s!" * subtract EXEC resources ({e})\n",
          s!" * subtract MULTI resources because their counts include 0 resource ({m})\n"]
          ++ maxNames.map (fun mx => s!" * add {mx}\n")
          ++ [" */\n",
            s!"#define RESOURCE_INSTANCE_COUNT ({mid} - {e} - {m}"]
          ++ maxNames.map
            (fun mx => " \\\n                                 + " ++ mx)
          ++ [")\n"], none)) ∧
    (∀ (obj : LWM2MObject) (maxInstance : LWM2MResource → Int),
      emitted_resource_instance_count obj maxInstance =
        spec_resource_instance_count obj maxInstance) := by
  constructor
  · intro obj mid e m maxNames hmid he hm hex
    have hlen : maxNames.length = m := by
      rw [hm]
      exact exceptList_ok_length _ _ _ hex
    unfold gen_res_inst_count
    simp only [res_inst_classify_fst, res_inst_classify_snd]
    rw [← he, ← hm]
    rw [gfor_of_exceptList (gen_res_max_name obj)
      (fun mx => [s!" * add {mx}\n"]) _ maxNames hex]
    rw [flatten_map_singleton]
    rw [show (gbind (gen_max_id obj) fun mid =>
        gpure [s!"#define RESOURCE_INSTANCE_COUNT ({mid} - {e} - {m}"]) =
      gpure [s!"#define RESOURCE_INSTANCE_COUNT ({mid} - {e} - {m}"] by
        rw [hmid]
        rfl]
    by_cases hz : 0 < m
    · rw [if_pos hz]
      rw [gfor_of_exceptList (gen_res_max_name obj)
        (fun mx => [" \\\n                                 + " ++ mx]) _
        maxNames hex]
      rw [flatten_map_singleton]
      simp [gseq, gpure]
    · rw [if_neg hz]
      have hnil : maxNames = [] := by
        have hm0 : m = 0 := by omega
        rw [hm0] at hlen
        exact List.eq_nil_of_length_eq_zero hlen
      subst hnil
      simp [gseq, gpure]
  · intro obj maxInstance
    unfold emitted_resource_instance_count spec_resource_instance_count
    rw [res_inst_classify_fst, res_inst_classify_snd]

def c1resExec : LWM2MResource :=
  ⟨1, some "Go Now", "E", true, true, some "String", some "d", none, none⟩

def c1resMulti : LWM2MResource :=
  ⟨2, some "Readings", "R", false, true, some "Integer", some "d",
    some true, some 32⟩

def c1resSingle : LWM2MResource :=
  ⟨3, some "Nick Name", "R", true, true, some "String", some "d", none, none⟩

def c1obj : LWM2MObject :=
  ⟨some "Test Object", some "d", 9999, some "u", some "v", false, true,
    [c1resExec, c1resMulti, c1resSingle]⟩

theorem C1_witness :
    gen_res_inst_count c1obj =
      (["/*\n", " * Calculate resource instances as follows:\n",
        " * start with DEVICE_MAX_ID\n",
        " * subtract EXEC resources (1)\n",
        " * subtract MULTI resources because their counts include 0 resource (1)\n",
        " * add TEST_OBJECT_READINGS_MAX\n",
        " */\n",
        "#define RESOURCE_INSTANCE_COUNT (TEST_OBJECT_MAX_ID - 1 - 1",
        " \\\n                                 + TEST_OBJECT_READINGS_MAX",
        ")\n"], none) := by
  have h := C1_resource_instance_count.1 c1obj "TEST_OBJECT_MAX_ID" 1 1
    ["TEST_OBJECT_READINGS_MAX"] (by decide) (by decide) (by decide)
    (by decide)
  exact h
